import Mathlib

/-!
Shallow embedding of the core of the vitaex-agentic-platform repository:
the agent dispatch runtime (src/agents/base.py), the digital twin engine
(src/agents/digital_twin_agent.py), the orchestrator routing table
(src/agents/orchestrator.py), the event envelope (src/common/event_bus.py)
and the consent oracle (src/common/privacy/consent.py).

Numeric values (Python floats) are embedded as rationals; Python dicts that
the modelled code reads by a fixed set of keys are embedded as structures
with optional fields; a Python value that may be absent or None is an
Option.  Python truthiness of a string (None and the empty string are
falsy) is modelled explicitly where the source relies on it.
-/

namespace VitaEx

/-- Embedding of HealthMetrics (digital_twin_agent.py lines 16-26): seven
bounded scalar fields with their dataclass defaults. -/
structure HealthMetrics where
  hrv : ℚ := 35
  resting_heart_rate : ℚ := 70
  sleep_efficiency : ℚ := 85/100
  activity_minutes : ℚ := 30
  steps_daily : ℚ := 8000
  stress_score : ℚ := 3/10
  recovery_score : ℚ := 7/10
  deriving Repr, DecidableEq

/-- Embedding of Python str.lower() for the ASCII metric-name strings the
code compares: lower-case every character. -/
def pyLower (s : String) : String := String.mk (s.data.map Char.toLower)

/-- Embedding of the FHIR observation sub-object read by
DigitalTwinAgent._update_from_wearables: the lowered code text and the
optional numeric value (valueQuantity.value, None modelled as none). -/
structure FhirObs where
  codeText : String := ""
  value : Option ℚ := none
  deriving Repr, DecidableEq

/-- One item of the wearable payload list.  The source processes an item
only when it is a dict containing a fhir key (line 168); an item that is
not such a dict is embedded as none. -/
def WearableItem : Type := Option FhirObs

instance : DecidableEq WearableItem :=
  fun a b => (inferInstance : DecidableEq (Option FhirObs)) a b

/-- Embedding of the body of the for-loop of
DigitalTwinAgent._update_from_wearables (lines 167-190): the elif chain
updating one metric field with bounds checking.  A heart_rate value that is
not strictly below 100 matches no branch and leaves the metrics unchanged;
steps has only a lower bound. -/
def updateFromWearablesItem (m : HealthMetrics) (item : WearableItem) : HealthMetrics :=
  match item with
  | none => m
  | some obs =>
    match obs.value with
    | none => m
    | some v =>
      let metric := pyLower obs.codeText
      if metric = "hrv" then
        { m with hrv := max 20 (min 100 v) }
      else if metric = "heart_rate" then
        (if v < 100 then { m with resting_heart_rate := max 40 (min 100 v) } else m)
      else if metric = "sleep_efficiency" then
        { m with sleep_efficiency := max 0 (min 1 v) }
      else if metric = "activity_minutes" then
        { m with activity_minutes := max 0 (min 240 v) }
      else if metric = "steps" then
        { m with steps_daily := max 0 v }
      else if metric = "stress_score" then
        { m with stress_score := max 0 (min 1 v) }
      else if metric = "recovery_score" then
        { m with recovery_score := max 0 (min 1 v) }
      else m

/-- Embedding of DigitalTwinAgent._update_from_wearables (lines 163-190):
fold the per-item update over the payload data list. -/
def updateFromWearables (m : HealthMetrics) (data : List WearableItem) : HealthMetrics :=
  data.foldl updateFromWearablesItem m

/-- Embedding of DigitalTwinAgent.VITALITY_WEIGHTS (lines 59-66). -/
def VITALITY_WEIGHTS (key : String) : ℚ :=
  if key = "hrv" then 1/4
  else if key = "sleep_efficiency" then 1/5
  else if key = "activity" then 1/5
  else if key = "recovery" then 3/20
  else if key = "stress" then 1/10
  else if key = "rhr" then 1/10
  else 0

/-- Normalized HRV sub-score (line 267): linear over the 20-100 ms
range, clamped to [0,1]. -/
def hrvScore (m : HealthMetrics) : ℚ := max 0 (min 1 ((m.hrv - 20) / 80))

/-- Sleep sub-score (line 268): the sleep efficiency as-is. -/
def sleepScore (m : HealthMetrics) : ℚ := m.sleep_efficiency

/-- Activity sub-score (line 269): minutes over 60, capped at 1. -/
def activityScore (m : HealthMetrics) : ℚ := min (m.activity_minutes / 60) 1

/-- Recovery sub-score (line 270): the recovery score as-is. -/
def recoveryScore (m : HealthMetrics) : ℚ := m.recovery_score

/-- Stress sub-score (line 271): inverted, lower stress is better. -/
def stressScore (m : HealthMetrics) : ℚ := 1 - m.stress_score

/-- Resting-heart-rate sub-score (line 272): inverted linear over the
40-100 bpm range, clamped to [0,1]. -/
def rhrScore (m : HealthMetrics) : ℚ := max 0 (min 1 (1 - (m.resting_heart_rate - 40) / 60))

/-- Embedding of DigitalTwinAgent._calculate_vitality_score (lines
252-285), as the pure function from the metrics snapshot to the new
vitality score the method stores on the twin. -/
def calculateVitalityScore (m : HealthMetrics) : ℚ :=
  let vitality :=
    hrvScore m * VITALITY_WEIGHTS "hrv" +
    sleepScore m * VITALITY_WEIGHTS "sleep_efficiency" +
    activityScore m * VITALITY_WEIGHTS "activity" +
    recoveryScore m * VITALITY_WEIGHTS "recovery" +
    stressScore m * VITALITY_WEIGHTS "stress" +
    rhrScore m * VITALITY_WEIGHTS "rhr"
  max 0 (min 1 vitality)

/-- Written from the spec's words for comparison (claim C5): the vitality
score as a fixed weighted sum of six sub-scores, each normalized to [0,1]
by the documented linear mappings (HRV over the 20-100 ms range, sleep
efficiency as-is, activity capped at 60 minutes, recovery as-is, stress
inverted, resting heart rate inverted over the 40-100 bpm range), with the
result clamped to [0,1]. -/
def vitalitySpecFormula (m : HealthMetrics) : ℚ :=
  max 0 (min 1
    ((max 0 (min 1 ((m.hrv - 20) / 80))) * (1/4) +
     m.sleep_efficiency * (1/5) +
     (min (m.activity_minutes / 60) 1) * (1/5) +
     m.recovery_score * (3/20) +
     (1 - m.stress_score) * (1/10) +
     (max 0 (min 1 (1 - (m.resting_heart_rate - 40) / 60))) * (1/10)))

/-- Embedding of an ISO timestamp string: either a string that
datetime.fromisoformat parses (carrying the parsed instant as seconds) or
a string it rejects with ValueError/TypeError. -/
inductive TimeStr
  | invalid (s : String)
  | valid (t : ℚ)
  deriving Repr, DecidableEq

/-- Embedding of TwinState (digital_twin_agent.py lines 28-47) with its
dataclass defaults.  Timestamp strings are TimeStr; created_at/updated_at
are optional because snapshot reconstruction passes state_dict.get, which
may produce None. -/
structure TwinState where
  user_id : String
  created_at : Option TimeStr := none
  updated_at : Option TimeStr := none
  metrics : HealthMetrics := {}
  vitality_score : ℚ := 0
  biological_age_delta : ℚ := 0
  trend_indicators : List (String × ℚ) := []
  intervention_efficacy : List (String × ℚ) := []
  last_sync : Option String := none
  version : ℤ := 1
  last_persistence : Option TimeStr := none
  deriving Repr, DecidableEq

/-- Association-list read modelling Python dict.get(key): first match or
None. -/
def alistGet {α : Type} : List (String × α) → String → Option α
  | [], _ => none
  | kv :: rest, k => if kv.1 = k then some kv.2 else alistGet rest k

/-- Association-list write modelling Python dict key assignment: replace
the value of the key when it exists, else append (Python dicts keep
insertion order; the registries built here never hold a key twice). -/
def alistSet {α : Type} : List (String × α) → String → α → List (String × α)
  | [], k, v => [(k, v)]
  | kv :: rest, k, v => if kv.1 = k then (k, v) :: rest else kv :: alistSet rest k v

/-- Embedding of a Python or-chain over strings: None and the empty
string are falsy. -/
def pyOrS (a : Option String) (b : String) : String :=
  match a with
  | none => b
  | some s => if s = "" then b else s

/-- Embedding of a Python or-chain over optional numbers, as used on
biomarker lookups: None and 0.0 are falsy. -/
def pyOrNum (a b : Option ℚ) : Option ℚ :=
  match a with
  | none => b
  | some q => if q = 0 then b else some q

/-- Embedding of the payload dict as read by the modelled code paths:
each field is the value found under the corresponding key (none when the
key is absent).  The context field is represented by the trigger value the
code extracts from it. -/
structure Payload where
  user_id : Option String := none
  data : List WearableItem := []
  biomarkers : List (String × ℚ) := []
  context_trigger : Option String := none
  meta : Option String := none
  user_context_ref : Option String := none
  graph_version : Option String := none
  deriving DecidableEq

/-- Embedding of the Event dataclass (event_bus.py lines 16-23).
Timestamps are instants in seconds. -/
structure Event where
  topic : String
  type : String
  payload : Payload
  user_id : Option String := none
  correlation_id : Option String := none
  timestamp : ℚ := 0
  deriving DecidableEq

/-- Embedding of the timestamp default of the Event dataclass: the source
line writes datetime.now(timezone.utc).isoformat() as the dataclass field
default, so Python evaluates it exactly once, when the class body is
executed at module import.  The default is therefore the import instant,
a constant of the process. -/
def eventTimestampDefault (moduleImportInstant : ℚ) : ℚ := moduleImportInstant

/-- Embedding of constructing an Event without passing a timestamp: every
field is taken from the arguments except timestamp, which is the
already-evaluated class-level default.  The instant at which the
construction happens does not enter the result. -/
def mkEventWithoutTimestamp (moduleImportInstant : ℚ) (topic ty : String) (payload : Payload)
    (user_id correlation_id : Option String) (constructionInstant : ℚ) : Event :=
  { topic := topic, type := ty, payload := payload, user_id := user_id,
    correlation_id := correlation_id,
    timestamp := eventTimestampDefault moduleImportInstant }

/-- Embedding of DigitalTwinAgent._consent_guard (lines 82-86) over an
abstract consent oracle check: a falsy user_id (None or the empty string)
returns True without consulting the oracle; otherwise the oracle is asked
for the personalization purpose. -/
def consentGuard (check : String → String → Bool) (e : Event) : Bool :=
  match e.user_id with
  | none => true
  | some u => if u = "" then true else check u "personalization"

/-- Embedding of DigitalTwinAgent._update_from_labs (lines 192-227):
collect the fixed signed age factors from the three recognised biomarker
groups and, when any factor was collected, set biological_age_delta to
their arithmetic mean. -/
def updateFromLabs (twin : TwinState) (biomarkers : List (String × ℚ)) : TwinState :=
  let crp := pyOrNum (alistGet biomarkers "crp") (alistGet biomarkers "c-reactive protein")
  let crpFactors : List ℚ :=
    match crp with
    | none => []
    | some c => if c < 1 then [-1] else if c > 3 then [2] else []
  let hba1c := pyOrNum (alistGet biomarkers "hba1c") (alistGet biomarkers "a1c")
  let hba1cFactors : List ℚ :=
    match hba1c with
    | none => []
    | some h => if h < 54/10 then [-1/2] else if h > 57/10 then [3/2] else []
  let vitd := pyOrNum (alistGet biomarkers "vitamin d") (alistGet biomarkers "25-hydroxyvitamin d")
  let vitdFactors : List ℚ :=
    match vitd with
    | none => []
    | some d => if d > 40 then [-3/10] else if d < 20 then [1] else []
  let age_factors := crpFactors ++ hba1cFactors ++ vitdFactors
  if age_factors.length = 0 then twin
  else { twin with biological_age_delta := age_factors.sum / age_factors.length }

/-- Embedding of Python round-half-to-even to an integer, the rounding
mode of the built-in round. -/
def roundHalfEven (q : ℚ) : ℤ :=
  let f := ⌊q⌋
  let frac := q - f
  if frac < 1/2 then f
  else if 1/2 < frac then f + 1
  else if f % 2 = 0 then f else f + 1

/-- Embedding of round(x, 3). -/
def round3 (q : ℚ) : ℚ := (roundHalfEven (q * 1000) : ℚ) / 1000

/-- Embedding of round(x, 1). -/
def round1 (q : ℚ) : ℚ := (roundHalfEven (q * 10) : ℚ) / 10

/-- Embedding of one row returned by the time-series query inside
_calculate_trends: ts is the parse result of the row's ts string (none
when the parse raises and the row is skipped), hasValue records whether
the value key is present (its absence raises KeyError after the timestamp
was already appended). -/
structure TsRow where
  ts : Option ℚ := none
  hasValue : Bool := true
  value : ℚ := 0

/-- Embedding of the collection loop of _calculate_trends (lines
310-316): for each row, a failed timestamp parse skips the row entirely,
while a parsed timestamp is appended before the value is read, so a row
with a parsed timestamp but a missing value key appends only to the
timestamp list. -/
def collectPoints (rows : List TsRow) : List ℚ × List ℚ :=
  rows.foldl
    (fun acc r =>
      match r.ts with
      | none => acc
      | some t => if r.hasValue then (acc.1 ++ [t], acc.2 ++ [r.value]) else (acc.1 ++ [t], acc.2))
    ([], [])

/-- Embedding of the per-metric normalization of the daily change rate
(lines 332-343), including the sign inversion for stress. -/
def trendNormalize (metric : String) (daily_change : ℚ) : ℚ :=
  if metric = "hrv" then max (-1) (min 1 (daily_change / 5))
  else if metric = "sleep_efficiency" then max (-1) (min 1 (daily_change / (5/100)))
  else if metric = "activity_minutes" then max (-1) (min 1 (daily_change / 10))
  else if metric = "stress_score" then max (-1) (min 1 (-daily_change / (1/10)))
  else max (-1) (min 1 daily_change)

/-- Embedding of the per-metric body of _calculate_trends (lines
297-345): the raw row count must exceed 5, at least two timestamps must
have parsed, the slope denominator must be positive, and then the stored
trend is the normalized, clamped, rounded daily change rate.  The slope
divides by n = number of parsed timestamps, also for the value mean, as
the source does. -/
def calculateTrendForMetric (metric : String) (data : List TsRow) : Option ℚ :=
  if data.length > 5 then
    let p := collectPoints data
    let timestamps := p.1
    let values := p.2
    if timestamps.length > 1 then
      let n : ℚ := timestamps.length
      let t_mean := timestamps.sum / n
      let v_mean := values.sum / n
      let numerator := ((timestamps.zip values).map (fun tv => (tv.1 - t_mean) * (tv.2 - v_mean))).sum
      let denominator := (timestamps.map (fun t => (t - t_mean) ^ 2)).sum
      if denominator > 0 then
        some (round3 (trendNormalize metric (numerator / denominator * 86400)))
      else none
    else none
  else none

/-- Metrics trended by _calculate_trends (line 293). -/
def metricsToTrend : List String := ["hrv", "sleep_efficiency", "activity_minutes", "stress_score"]

/-- One iteration of the metric loop of _calculate_trends: query the
rows for one metric (a raised query is caught and skips the metric) and,
when a trend is computed, assign it under the metric_trend key. -/
def trendStep (query : String → Option (List TsRow)) (tw : TwinState) (metric : String) : TwinState :=
  match query metric with
  | none => tw
  | some data =>
    match calculateTrendForMetric metric data with
    | none => tw
    | some score =>
      { tw with trend_indicators := alistSet tw.trend_indicators (metric ++ "_trend") score }

/-- Embedding of DigitalTwinAgent._calculate_trends (lines 287-348) over
a query function from metric name to the rows returned for this user in
the trailing 30-day window (none models a query that raises; the
exception is caught per metric and that metric is skipped). -/
def calculateTrends (twin : TwinState) (query : String → Option (List TsRow)) : TwinState :=
  metricsToTrend.foldl (trendStep query) twin

/-- Embedding of the persistence decision of _schedule_persistence (lines
352-364): persist when no last_persistence is recorded, when the recorded
string does not parse, or when at least the 300-second interval has
elapsed. -/
def shouldPersist (lastP : Option TimeStr) (now : ℚ) : Bool :=
  match lastP with
  | none => true
  | some (TimeStr.invalid s) => true
  | some (TimeStr.valid t) => decide (now - t ≥ 300)

/-- Result of the scheduling step: the updated twin, the updated
per-user pending-task registry, the next fresh task id, and the task ids
cancelled by this step. -/
structure SchedResult where
  twin : TwinState
  tasks : List (String × Nat)
  nextTaskId : Nat
  cancelled : List Nat
  deriving Repr, DecidableEq

/-- Embedding of DigitalTwinAgent._schedule_persistence (lines 350-374):
when the decision says persist, cancel the pending task recorded for the
user (if any), record a fresh task as the user's single pending slot, and
stamp last_persistence with now; otherwise change nothing. -/
def schedulePersistence (twin : TwinState) (tasks : List (String × Nat)) (nextId : Nat) (now : ℚ) : SchedResult :=
  if shouldPersist twin.last_persistence now then
    { twin := { twin with last_persistence := some (TimeStr.valid now) },
      tasks := alistSet tasks twin.user_id nextId,
      nextTaskId := nextId + 1,
      cancelled := (alistGet tasks twin.user_id).toList }
  else
    { twin := twin, tasks := tasks, nextTaskId := nextId, cancelled := [] }

/-- Embedding of the effect of _persist_twin_state (lines 376-395) on the
twin: a successful insert leaves the twin unchanged, a failing insert
resets last_persistence to None so the next qualifying event retries. -/
def persistTwinOutcome (twin : TwinState) (insertOk : Bool) : TwinState :=
  if insertOk then twin else { twin with last_persistence := none }

/-- Field names accepted by the HealthMetrics dataclass constructor. -/
def healthMetricsFieldNames : List String :=
  ["hrv", "resting_heart_rate", "sleep_efficiency", "activity_minutes",
   "steps_daily", "stress_score", "recovery_score"]

/-- Embedding of one keyword assignment of HealthMetrics(**metrics_dict). -/
def setMetricsField (m : HealthMetrics) (k : String) (v : ℚ) : HealthMetrics :=
  if k = "hrv" then { m with hrv := v }
  else if k = "resting_heart_rate" then { m with resting_heart_rate := v }
  else if k = "sleep_efficiency" then { m with sleep_efficiency := v }
  else if k = "activity_minutes" then { m with activity_minutes := v }
  else if k = "steps_daily" then { m with steps_daily := v }
  else if k = "stress_score" then { m with stress_score := v }
  else if k = "recovery_score" then { m with recovery_score := v }
  else m

/-- Embedding of HealthMetrics(**metrics_dict) (line 412): any key that
is not a dataclass field raises TypeError (modelled as none); otherwise
the named fields are assigned over the defaults. -/
def healthMetricsOfDict (entries : List (String × ℚ)) : Option HealthMetrics :=
  if entries.all (fun kv => healthMetricsFieldNames.contains kv.1) then
    some (entries.foldl (fun m kv => setMetricsField m kv.1 kv.2) {})
  else none

/-- Embedding of the state dict stored under meta.state of the
twin_state snapshot, as read by _load_twin_state via state_dict.get: each
field is the stored value when present. -/
structure StoredState where
  metrics : Option (List (String × ℚ)) := none
  created_at : Option TimeStr := none
  updated_at : Option TimeStr := none
  vitality_score : Option ℚ := none
  biological_age_delta : Option ℚ := none
  trend_indicators : Option (List (String × ℚ)) := none
  intervention_efficacy : Option (List (String × ℚ)) := none
  last_sync : Option String := none
  version : Option ℤ := none
  last_persistence : Option TimeStr := none

/-- Embedding of DigitalTwinAgent._load_twin_state (lines 397-435) given
the snapshot the query yields (none when the query raises, returns no
row, or the row has no truthy meta.state).  An unexpected key inside the
stored metrics dict makes HealthMetrics(**metrics_dict) raise TypeError,
which the enclosing except catches, so the whole load returns none; a
successful metrics reconstruction applies the remaining fields with
state_dict.get defaults. -/
def loadTwinState (user_id : String) (snapshot : Option StoredState) : Option TwinState :=
  match snapshot with
  | none => none
  | some sd =>
    match healthMetricsOfDict (sd.metrics.getD []) with
    | none => none
    | some m =>
      some { user_id := user_id,
             created_at := sd.created_at,
             updated_at := sd.updated_at,
             metrics := m,
             vitality_score := sd.vitality_score.getD 0,
             biological_age_delta := sd.biological_age_delta.getD 0,
             trend_indicators := sd.trend_indicators.getD [],
             intervention_efficacy := sd.intervention_efficacy.getD [],
             last_sync := sd.last_sync,
             version := sd.version.getD 1,
             last_persistence := sd.last_persistence }

/-- Payloads the modelled agents publish, with the fields the source
puts into each dict. -/
inductive PubPayload
  | twinUpdated (user_id : String) (vitality : ℚ) (age_delta : ℚ) (metrics : HealthMetrics)
      (trends : List (String × ℚ)) (version : ℤ)
  | simulationRequest (user_id : String) (current_vitality : ℚ)
  | twinUpdateRequest (reason : String) (source_topic : String) (data_meta : Option String)
  | protocolRequest (reason : String) (source_topic : String) (user_context_ref : Option String)
  | graphUpdated (graph_version : Option String)
  deriving DecidableEq

/-- One outbound publish: the arguments the agent hands to
EventBus.publish. -/
structure Pub where
  topic : String
  event_type : String
  payload : PubPayload
  user_id : Option String := none
  correlation_id : Option String := none
  deriving DecidableEq

/-- In-memory state of the digital twin agent: the twin registry keyed
by user_id, the per-user pending persistence task slots, and a counter
supplying fresh task ids. -/
structure TwinAgentState where
  twins : List (String × TwinState) := []
  persistenceTasks : List (String × Nat) := []
  nextTaskId : Nat := 0
  deriving DecidableEq

/-- Environment of one handle call: the wall-clock instant, the
time-series trend query (per metric, for the resolved user), and the
stored snapshot lookup used when the twin is not in memory. -/
structure TwinEnv where
  now : ℚ
  trendQuery : String → Option (List TsRow) := fun _ => some []
  snapshot : String → Option StoredState := fun _ => none

/-- Embedding of DigitalTwinAgent._get_or_create_twin (lines 142-161). -/
def getOrCreateTwin (st : TwinAgentState) (env : TwinEnv) (user_id : String) : TwinState :=
  match alistGet st.twins user_id with
  | some t => t
  | none =>
    match loadTwinState user_id (env.snapshot user_id) with
    | some t => t
    | none =>
      { user_id := user_id,
        created_at := some (TimeStr.valid env.now),
        updated_at := some (TimeStr.valid env.now) }

/-- Embedding of DigitalTwinAgent._recalculate_twin (lines 229-250):
recompute score and trends without touching metrics, and publish a
simulation request when the context trigger marks an intervention
change. -/
def recalculateTwin (twin : TwinState) (env : TwinEnv) (e : Event) : TwinState × List Pub :=
  let t1 := { twin with vitality_score := calculateVitalityScore twin.metrics }
  let t2 := calculateTrends t1 env.trendQuery
  let pubs : List Pub :=
    if e.payload.context_trigger = some "intervention_change" then
      [{ topic := "simulation.vitality.requested",
         event_type := "simulation.request",
         payload := PubPayload.simulationRequest t2.user_id t2.vitality_score,
         user_id := some t2.user_id,
         correlation_id := e.correlation_id }]
    else []
  (t2, pubs)

/-- Topic branch of DigitalTwinAgent.handle (lines 93-98): the
event-specific update chosen by the event's topic. -/
def topicUpdate (twin0 : TwinState) (env : TwinEnv) (e : Event) : TwinState × List Pub :=
  if e.topic = "ingest.wearables.standardized" then
    ({ twin0 with metrics := updateFromWearables twin0.metrics e.payload.data }, [])
  else if e.topic = "ingest.labs.standardized" then
    (updateFromLabs twin0 e.payload.biomarkers, [])
  else if e.topic = "user.twin.update.requested" then
    recalculateTwin twin0 env e
  else (twin0, [])

/-- Embedding of DigitalTwinAgent.handle (lines 88-140): resolve the
user identity through the or-chain, get or create the twin, apply the
topic-specific update, recompute score and trends, bump version and
updated_at, store the twin, run the persistence scheduling, and publish
the user.twin.updated summary. -/
def twinHandle (st : TwinAgentState) (env : TwinEnv) (e : Event) : TwinAgentState × List Pub :=
  let user_id := pyOrS e.user_id (pyOrS e.payload.user_id "unknown")
  let twin0 := getOrCreateTwin st env user_id
  let step1 := topicUpdate twin0 env e
  let twin2 := { step1.1 with vitality_score := calculateVitalityScore step1.1.metrics }
  let twin3 := calculateTrends twin2 env.trendQuery
  let twin4 := { twin3 with updated_at := some (TimeStr.valid env.now), version := twin3.version + 1 }
  let eff := schedulePersistence twin4 st.persistenceTasks st.nextTaskId env.now
  let st' : TwinAgentState :=
    { twins := alistSet st.twins user_id eff.twin,
      persistenceTasks := eff.tasks,
      nextTaskId := eff.nextTaskId }
  let summary : Pub :=
    { topic := "user.twin.updated",
      event_type := "twin.updated",
      payload := PubPayload.twinUpdated user_id (round3 eff.twin.vitality_score)
        (round1 eff.twin.biological_age_delta) eff.twin.metrics eff.twin.trend_indicators
        eff.twin.version,
      user_id := some user_id,
      correlation_id := e.correlation_id }
  (st', step1.2 ++ [summary])

/-- Outcome of the dispatch boundary for one inbound event. -/
inductive DispatchOutcome
  | dropped (warning : String)
  | handled (st : TwinAgentState) (pubs : List Pub)
  deriving DecidableEq

/-- True when the dispatch dropped the event at the boundary. -/
def DispatchOutcome.isDropped : DispatchOutcome → Bool
  | .dropped _ => true
  | .handled _ _ => false

/-- Publishes produced by the dispatch (none when dropped). -/
def DispatchOutcome.pubs : DispatchOutcome → List Pub
  | .dropped _ => []
  | .handled _ ps => ps

/-- Version of the twin stored for a user after the dispatch, when the
event was handled and such a twin exists. -/
def DispatchOutcome.twinVersion (o : DispatchOutcome) (u : String) : Option ℤ :=
  match o with
  | .dropped _ => none
  | .handled st _ => (alistGet st.twins u).map (fun t => t.version)

/-- Version field carried by a published twinUpdated payload. -/
def Pub.payloadVersion (p : Pub) : Option ℤ :=
  match p.payload with
  | .twinUpdated _ _ _ _ _ v => some v
  | _ => none

/-- Vitality score carried by a published twinUpdated payload. -/
def Pub.payloadVitality (p : Pub) : Option ℚ :=
  match p.payload with
  | .twinUpdated _ v _ _ _ _ => some v
  | _ => none

/-- Metrics snapshot carried by a published twinUpdated payload. -/
def Pub.payloadMetrics (p : Pub) : Option HealthMetrics :=
  match p.payload with
  | .twinUpdated _ _ _ m _ _ => some m
  | _ => none

/-- Reason field carried by a published routing payload. -/
def Pub.payloadReason (p : Pub) : Option String :=
  match p.payload with
  | .twinUpdateRequest r _ _ => some r
  | .protocolRequest r _ _ => some r
  | _ => none

/-- Embedding of BaseAgent._handle_event (base.py lines 43-53)
specialised to the digital twin agent: evaluate the consent guard; when
it denies, emit a warning-level record and stop with no handler
invocation and no publish; otherwise run handle. -/
def twinDispatch (check : String → String → Bool) (st : TwinAgentState) (env : TwinEnv)
    (e : Event) : DispatchOutcome :=
  if consentGuard check e then
    let r := twinHandle st env e
    DispatchOutcome.handled r.1 r.2
  else
    DispatchOutcome.dropped "consent guard blocked event"

/-- Embedding of Orchestrator.handle (orchestrator.py lines 42-83): the
routing table from the inbound topic to the outbound publishes, each
preserving user_id and correlation_id. -/
def orchestratorHandle (e : Event) : List Pub :=
  if e.topic = "ingest.wearables.standardized" ∨ e.topic = "ingest.labs.standardized" then
    [{ topic := "user.twin.update.requested",
       event_type := "twin.update",
       payload := PubPayload.twinUpdateRequest "new_data" e.topic e.payload.meta,
       user_id := e.user_id,
       correlation_id := e.correlation_id },
     { topic := "protocol.generate.requested",
       event_type := "protocol.request",
       payload := PubPayload.protocolRequest "new_data_or_simulation" e.topic e.payload.user_context_ref,
       user_id := e.user_id,
       correlation_id := e.correlation_id }]
  else if e.topic = "knowledge.research.import.completed" then
    [{ topic := "knowledge.graph.updated",
       event_type := "graph.updated",
       payload := PubPayload.graphUpdated e.payload.graph_version,
       user_id := none,
       correlation_id := e.correlation_id }]
  else if e.topic = "simulation.vitality.completed" then
    [{ topic := "protocol.generate.requested",
       event_type := "protocol.request",
       payload := PubPayload.protocolRequest "new_data_or_simulation" e.topic e.payload.user_context_ref,
       user_id := e.user_id,
       correlation_id := e.correlation_id }]
  else []

/-- Topics the orchestrator subscribes to (OrchestratorConfig.__post_init__,
orchestrator.py lines 18-26). -/
def orchestratorSubscribeTopics : List String :=
  ["ingest.wearables.standardized",
   "ingest.labs.standardized",
   "knowledge.research.import.completed",
   "simulation.vitality.completed",
   "protocol.review.updated"]

/-! Helper lemmas shared by the claim theorems. -/

theorem roundHalfEven_of_lt (q : ℚ) (n : ℤ) (h1 : (n : ℚ) ≤ q) (h2 : q - n < 1/2) :
    roundHalfEven q = n := by
  have hq : q < n + 1 := by linarith
  have hf : ⌊q⌋ = n := by
    rw [Int.floor_eq_iff]
    exact ⟨h1, by exact_mod_cast hq⟩
  unfold roundHalfEven
  simp only [hf]
  rw [if_pos h2]

theorem roundHalfEven_of_gt (q : ℚ) (n : ℤ) (h1 : (n : ℚ) ≤ q) (h2 : q < n + 1)
    (h3 : 1/2 < q - n) : roundHalfEven q = n + 1 := by
  have hf : ⌊q⌋ = n := by
    rw [Int.floor_eq_iff]
    exact ⟨h1, by exact_mod_cast h2⟩
  unfold roundHalfEven
  simp only [hf]
  rw [if_neg (by linarith), if_pos h3]

theorem roundHalfEven_bounds (a b : ℤ) (q : ℚ) (ha : (a : ℚ) ≤ q) (hb : q ≤ (b : ℚ)) :
    a ≤ roundHalfEven q ∧ roundHalfEven q ≤ b := by
  have hfa : a ≤ ⌊q⌋ := Int.le_floor.mpr ha
  have hfb : ⌊q⌋ ≤ b := Int.le_floor.mpr (le_trans (Int.floor_le q) hb)
  have hfq : (⌊q⌋ : ℚ) ≤ q := Int.floor_le q
  simp only [roundHalfEven]
  split
  · exact ⟨hfa, hfb⟩
  · rename_i h
    push_neg at h
    have hstep : (⌊q⌋ : ℚ) + 1/2 ≤ q := by linarith
    have hb3 : ⌊q⌋ + 1 ≤ b := by
      by_contra hc
      push_neg at hc
      have hcb : (⌊q⌋ : ℚ) ≤ (b : ℚ) := by exact_mod_cast hfb
      have hbc : (⌊q⌋ : ℚ) < (b : ℚ) + 1 := by linarith
      have : ⌊q⌋ = b := by omega
      rw [this] at hstep
      linarith
    split
    · exact ⟨le_trans hfa (by omega), hb3⟩
    · split
      · exact ⟨hfa, hfb⟩
      · exact ⟨le_trans hfa (by omega), hb3⟩

theorem round3_bounds (q : ℚ) (h1 : -1 ≤ q) (h2 : q ≤ 1) :
    -1 ≤ round3 q ∧ round3 q ≤ 1 := by
  have hb := roundHalfEven_bounds (-1000) 1000 (q * 1000) (by push_cast; linarith)
    (by push_cast; linarith)
  unfold round3
  constructor
  · have h3 : ((-1000 : ℤ) : ℚ) ≤ (roundHalfEven (q * 1000) : ℚ) := by exact_mod_cast hb.1
    push_cast at h3
    linarith
  · have h3 : ((roundHalfEven (q * 1000) : ℤ) : ℚ) ≤ ((1000 : ℤ) : ℚ) := by exact_mod_cast hb.2
    push_cast at h3
    linarith

theorem roundHalfEven_zero : roundHalfEven 0 = 0 := by
  rw [roundHalfEven_of_lt 0 0 (by norm_num) (by norm_num)]

theorem round1_zero : round1 0 = 0 := by
  unfold round1
  norm_num [roundHalfEven_zero]

theorem round3_c3val : round3 (917/1600) = 573/1000 := by
  unfold round3
  rw [roundHalfEven_of_lt (917 / 1600 * 1000) 573 (by norm_num) (by norm_num)]
  norm_num

theorem round3_c1val : round3 (867/1600) = 271/500 := by
  unfold round3
  rw [roundHalfEven_of_gt (867 / 1600 * 1000) 541 (by norm_num) (by norm_num) (by norm_num)]
  norm_num

theorem round3_fifth : round3 (1/5) = 1/5 := by
  unfold round3
  rw [roundHalfEven_of_lt (1 / 5 * 1000) 200 (by norm_num) (by norm_num)]
  norm_num

theorem pyLower_hrv : pyLower "hrv" = "hrv" := by decide

theorem pyLower_heart_rate : pyLower "heart_rate" = "heart_rate" := by decide

theorem alistGet_alistSet {α : Type} (d : List (String × α)) (k : String) (v : α) :
    alistGet (alistSet d k v) k = some v := by
  induction d with
  | nil => simp [alistSet, alistGet]
  | cons kv rest ih =>
    by_cases h : kv.1 = k
    · simp [alistSet, alistGet, h]
    · simp [alistSet, alistGet, h, ih]

theorem clamp_characterize (lo hi v : ℚ) (h : lo ≤ hi) :
    max lo (min hi v) = if v < lo then lo else if hi < v then hi else v := by
  rcases lt_or_le v lo with h1 | h1
  · rw [if_pos h1, max_eq_left (le_trans (min_le_right hi v) h1.le)]
  · rw [if_neg (not_lt.mpr h1)]
    rcases lt_or_le hi v with h2 | h2
    · rw [if_pos h2, min_eq_left h2.le, max_eq_right h]
    · rw [if_neg (not_lt.mpr h2), min_eq_right h2, max_eq_right h1]

theorem trendStep_version (q : String → Option (List TsRow)) (tw : TwinState) (metric : String) :
    (trendStep q tw metric).version = tw.version := by
  unfold trendStep
  cases hq : q metric with
  | none => rfl
  | some data =>
    cases ht : calculateTrendForMetric metric data with
    | none => simp [ht]
    | some s => simp [ht]

theorem foldl_trendStep_version (q : String → Option (List TsRow)) :
    ∀ (l : List String) (tw : TwinState), (l.foldl (trendStep q) tw).version = tw.version := by
  intro l
  induction l with
  | nil => intro tw; rfl
  | cons m rest ih =>
    intro tw
    simp only [List.foldl_cons]
    rw [ih, trendStep_version]

theorem calculateTrends_version (tw : TwinState) (q : String → Option (List TsRow)) :
    (calculateTrends tw q).version = tw.version := by
  unfold calculateTrends
  exact foldl_trendStep_version q metricsToTrend tw

theorem updateFromLabs_version (tw : TwinState) (b : List (String × ℚ)) :
    (updateFromLabs tw b).version = tw.version := by
  simp only [updateFromLabs]
  split <;> rfl

theorem recalculateTwin_version (tw : TwinState) (env : TwinEnv) (e : Event) :
    (recalculateTwin tw env e).1.version = tw.version := by
  unfold recalculateTwin
  simp only
  rw [calculateTrends_version]

theorem schedulePersistence_twin_version (tw : TwinState) (tasks : List (String × Nat))
    (nextId : Nat) (now : ℚ) :
    (schedulePersistence tw tasks nextId now).twin.version = tw.version := by
  unfold schedulePersistence
  split <;> rfl

theorem pyLower_sleep : pyLower "sleep_efficiency" = "sleep_efficiency" := by decide

theorem pyLower_activity : pyLower "activity_minutes" = "activity_minutes" := by decide

theorem pyLower_steps : pyLower "steps" = "steps" := by decide

theorem pyLower_stress : pyLower "stress_score" = "stress_score" := by decide

theorem pyLower_recovery : pyLower "recovery_score" = "recovery_score" := by decide

/-! Claim C2. -/

/-- Claim C2 counterexample: the stored value is not always the nearest
bound of the documented range.  A heart_rate observation of 150 bpm is
outside the documented 40-100 bpm range of resting_heart_rate, yet
_update_from_wearables ignores it (the branch requires value < 100):
starting from the default metrics, the stored resting_heart_rate stays
70, not the nearest bound 100. -/
theorem wearable_heart_rate_not_clamped_cex :
    (updateFromWearablesItem {} (some { codeText := "heart_rate", value := some 150 })).resting_heart_rate = 70
    ∧ (70 : ℚ) ≠ 100 := by
  constructor
  · norm_num +decide [updateFromWearablesItem, pyLower_heart_rate]
  · norm_num

/-- Claim C2 amended: every wearable write stores a clamped value and
never rejects the input, with these ranges: hrv to [20,100],
sleep_efficiency, stress_score and recovery_score to [0,1],
activity_minutes to [0,240]; a heart_rate value is stored (clamped to
[40,100]) only when it is strictly below 100, and is otherwise ignored
entirely; steps is clamped below at 0 and has no upper bound. -/
theorem wearable_clamping_amended (m : HealthMetrics) (v : ℚ) :
    updateFromWearablesItem m (some { codeText := "hrv", value := some v }) =
      { m with hrv := max 20 (min 100 v) }
  ∧ (updateFromWearablesItem m (some { codeText := "hrv", value := some v })).hrv =
      (if v < 20 then 20 else if 100 < v then 100 else v)
  ∧ updateFromWearablesItem m (some { codeText := "heart_rate", value := some v }) =
      (if v < 100 then { m with resting_heart_rate := max 40 (min 100 v) } else m)
  ∧ (updateFromWearablesItem m (some { codeText := "sleep_efficiency", value := some v })).sleep_efficiency =
      (if v < 0 then 0 else if 1 < v then 1 else v)
  ∧ (updateFromWearablesItem m (some { codeText := "activity_minutes", value := some v })).activity_minutes =
      (if v < 0 then 0 else if 240 < v then 240 else v)
  ∧ (updateFromWearablesItem m (some { codeText := "steps", value := some v })).steps_daily = max 0 v
  ∧ (updateFromWearablesItem m (some { codeText := "stress_score", value := some v })).stress_score =
      (if v < 0 then 0 else if 1 < v then 1 else v)
  ∧ (updateFromWearablesItem m (some { codeText := "recovery_score", value := some v })).recovery_score =
      (if v < 0 then 0 else if 1 < v then 1 else v) := by
  refine ⟨?_, ?_, ?_, ?_, ?_, ?_, ?_, ?_⟩
  · norm_num +decide [updateFromWearablesItem, pyLower_hrv]
  · norm_num +decide [updateFromWearablesItem, pyLower_hrv]
    rw [clamp_characterize 20 100 v (by norm_num)]
  · norm_num +decide [updateFromWearablesItem, pyLower_heart_rate]
  · norm_num +decide [updateFromWearablesItem, pyLower_sleep]
    rw [clamp_characterize 0 1 v (by norm_num)]
  · norm_num +decide [updateFromWearablesItem, pyLower_activity]
    rw [clamp_characterize 0 240 v (by norm_num)]
  · norm_num +decide [updateFromWearablesItem, pyLower_steps]
  · norm_num +decide [updateFromWearablesItem, pyLower_stress]
    rw [clamp_characterize 0 1 v (by norm_num)]
  · norm_num +decide [updateFromWearablesItem, pyLower_recovery]
    rw [clamp_characterize 0 1 v (by norm_num)]

/-! Claim C4. -/

/-- Claim C4 counterexample: the claimed route covers every
ingest.*.standardized topic including questionnaire, but an
ingest.questionnaire.standardized event produces zero outbound publishes
(not two), and the orchestrator does not even subscribe to that topic. -/
theorem orchestrator_questionnaire_not_routed_cex :
    orchestratorHandle
        { topic := "ingest.questionnaire.standardized", type := "q",
          payload := {}, user_id := some "u1", correlation_id := some "c4" } = []
    ∧ "ingest.questionnaire.standardized" ∉ orchestratorSubscribeTopics := by
  constructor
  · norm_num +decide [orchestratorHandle]
  · decide

/-- Claim C4 amended: for the two routed standardized-ingest topics
(wearables and labs) the orchestrator produces exactly two outbound
publishes, to user.twin.update.requested (reason new_data) and to
protocol.generate.requested (reason new_data_or_simulation), both
carrying the triggering event's correlation_id and user_id;
ingest.questionnaire.standardized is not routed. -/
theorem orchestrator_routing_amended (e : Event)
    (h : e.topic = "ingest.wearables.standardized" ∨ e.topic = "ingest.labs.standardized") :
    orchestratorHandle e =
      [{ topic := "user.twin.update.requested", event_type := "twin.update",
         payload := PubPayload.twinUpdateRequest "new_data" e.topic e.payload.meta,
         user_id := e.user_id, correlation_id := e.correlation_id },
       { topic := "protocol.generate.requested", event_type := "protocol.request",
         payload := PubPayload.protocolRequest "new_data_or_simulation" e.topic e.payload.user_context_ref,
         user_id := e.user_id, correlation_id := e.correlation_id }]
    ∧ (orchestratorHandle e).length = 2
    ∧ (∀ p ∈ orchestratorHandle e, p.correlation_id = e.correlation_id ∧ p.user_id = e.user_id)
    ∧ (orchestratorHandle e).map Pub.payloadReason = [some "new_data", some "new_data_or_simulation"] := by
  have he : orchestratorHandle e =
      [{ topic := "user.twin.update.requested", event_type := "twin.update",
         payload := PubPayload.twinUpdateRequest "new_data" e.topic e.payload.meta,
         user_id := e.user_id, correlation_id := e.correlation_id },
       { topic := "protocol.generate.requested", event_type := "protocol.request",
         payload := PubPayload.protocolRequest "new_data_or_simulation" e.topic e.payload.user_context_ref,
         user_id := e.user_id, correlation_id := e.correlation_id }] := by
    unfold orchestratorHandle
    rw [if_pos h]
  refine ⟨he, by rw [he]; rfl, ?_, by rw [he]; rfl⟩
  intro p hp
  rw [he] at hp
  simp only [List.mem_cons, List.not_mem_nil, or_false] at hp
  rcases hp with hp | hp
  · rw [hp]; exact ⟨rfl, rfl⟩
  · rw [hp]; exact ⟨rfl, rfl⟩

/-- Claim C4 witness: the amended routing theorem applied to a concrete
wearables event. -/
theorem orchestrator_routing_amended_witness :
    orchestratorHandle
        { topic := "ingest.wearables.standardized", type := "w",
          payload := {}, user_id := some "u1", correlation_id := some "c9" } =
      [{ topic := "user.twin.update.requested", event_type := "twin.update",
         payload := PubPayload.twinUpdateRequest "new_data" "ingest.wearables.standardized" none,
         user_id := some "u1", correlation_id := some "c9" },
       { topic := "protocol.generate.requested", event_type := "protocol.request",
         payload := PubPayload.protocolRequest "new_data_or_simulation" "ingest.wearables.standardized" none,
         user_id := some "u1", correlation_id := some "c9" }] :=
  (orchestrator_routing_amended
    { topic := "ingest.wearables.standardized", type := "w",
      payload := {}, user_id := some "u1", correlation_id := some "c9" } (Or.inl rfl)).1

/-! Claim C7. -/

/-- Claim C7 counterexample: the claim schedules persistence only when
the elapsed wall-clock time strictly exceeds 5 minutes, but the code uses
a non-strict comparison: at exactly 300 seconds since the last
persistence the code schedules (and stamps a new last_persistence) even
though the elapsed time does not exceed 300 seconds. -/
theorem persistence_interval_boundary_cex :
    shouldPersist (some (TimeStr.valid 0)) 300 = true
    ∧ ¬ ((300 : ℚ) - 0 > 300)
    ∧ (schedulePersistence { user_id := "u7", last_persistence := some (TimeStr.valid 0) }
        [] 0 300).twin.last_persistence = some (TimeStr.valid 300) := by
  refine ⟨?_, by norm_num, ?_⟩
  · norm_num [shouldPersist]
  · norm_num [schedulePersistence, shouldPersist]

/-- Claim C7 amended: persistence is scheduled if and only if no prior
persistence timestamp exists, the stored one is unparseable, or at least
5 minutes (300 seconds, non-strict) have elapsed; scheduling cancels the
user's previously pending task and installs the fresh task as the only
pending one; when the decision is negative nothing changes; and a failed
persistence resets the marker so the next decision is positive. -/
theorem persistence_debounce_amended :
    (∀ (lastP : Option TimeStr) (now : ℚ),
        shouldPersist lastP now = true ↔
          (lastP = none ∨ (∃ s, lastP = some (TimeStr.invalid s)) ∨
            (∃ t, lastP = some (TimeStr.valid t) ∧ now - t ≥ 300)))
  ∧ (∀ (tw : TwinState) (tasks : List (String × Nat)) (nextId : Nat) (now : ℚ),
        shouldPersist tw.last_persistence now = true →
          alistGet (schedulePersistence tw tasks nextId now).tasks tw.user_id = some nextId ∧
          (schedulePersistence tw tasks nextId now).cancelled = (alistGet tasks tw.user_id).toList ∧
          (schedulePersistence tw tasks nextId now).twin.last_persistence = some (TimeStr.valid now))
  ∧ (∀ (tw : TwinState) (tasks : List (String × Nat)) (nextId : Nat) (now : ℚ),
        shouldPersist tw.last_persistence now = false →
          schedulePersistence tw tasks nextId now =
            { twin := tw, tasks := tasks, nextTaskId := nextId, cancelled := [] })
  ∧ (∀ (tw : TwinState) (now : ℚ),
        shouldPersist (persistTwinOutcome tw false).last_persistence now = true) := by
  refine ⟨?_, ?_, ?_, ?_⟩
  · intro lastP now
    rcases lastP with _ | ts
    · simp [shouldPersist]
    · rcases ts with s | t
      · simp [shouldPersist]
      · simp only [shouldPersist, decide_eq_true_eq]
        constructor
        · intro hge
          exact Or.inr (Or.inr ⟨t, rfl, hge⟩)
        · rintro (h | ⟨s, h⟩ | ⟨u, hu, hge⟩)
          · exact absurd h (by simp)
          · exact absurd h (by simp)
          · simp only [Option.some.injEq, TimeStr.valid.injEq] at hu
            subst hu
            exact hge
  · intro tw tasks nextId now h
    unfold schedulePersistence
    rw [if_pos h]
    exact ⟨alistGet_alistSet tasks tw.user_id nextId, rfl, rfl⟩
  · intro tw tasks nextId now h
    unfold schedulePersistence
    rw [if_neg (by rw [h]; exact Bool.false_ne_true)]
  · intro tw now
    simp [persistTwinOutcome, shouldPersist]

/-- Claim C7 witness: the amended persistence theorem applied to
concrete inputs: a never-persisted twin schedules and installs task 5 as
its pending slot, and a twin whose last write failed is persisted again. -/
theorem persistence_debounce_amended_witness :
    (shouldPersist none 0 = true ↔
       ((none : Option TimeStr) = none ∨
         (∃ s, (none : Option TimeStr) = some (TimeStr.invalid s)) ∨
         (∃ t, (none : Option TimeStr) = some (TimeStr.valid t) ∧ (0:ℚ) - t ≥ 300)))
  ∧ (alistGet (schedulePersistence { user_id := "u1" } [("u1", 3)] 5 0).tasks "u1" = some 5 ∧
      (schedulePersistence { user_id := "u1" } [("u1", 3)] 5 0).cancelled =
        (alistGet [("u1", 3)] "u1").toList ∧
      (schedulePersistence { user_id := "u1" } [("u1", 3)] 5 0).twin.last_persistence =
        some (TimeStr.valid 0))
  ∧ shouldPersist (persistTwinOutcome { user_id := "u1" } false).last_persistence 7 = true :=
  ⟨persistence_debounce_amended.1 none 0,
   persistence_debounce_amended.2.1 { user_id := "u1" } [("u1", 3)] 5 0 rfl,
   persistence_debounce_amended.2.2.2 { user_id := "u1" } 7⟩

/-! Claim C8. -/

/-- Claim C8 counterexample: a stored snapshot whose metrics sub-object
holds one well-formed field and one unexpected key loads as no twin at
all: the whole load fails instead of applying the remaining well-formed
fields. -/
theorem load_malformed_metrics_fails_whole_load_cex :
    loadTwinState "u1" (some { metrics := some [("hrv", 50), ("bogus", 1)] }) = none := by
  norm_num +decide [loadTwinState, healthMetricsOfDict, healthMetricsFieldNames]

/-- Claim C8 amended: snapshot reconstruction is field-by-field only at
the top level of the stored state (each absent top-level field falls back
to its default); the metrics sub-object is all-or-nothing: any unexpected
key inside it makes HealthMetrics(**metrics_dict) raise and the whole
load return no twin (so the caller default-initializes), while a metrics
dict with only recognised keys loads with those fields applied. -/
theorem load_field_by_field_amended (u : String) (sd : StoredState)
    (ents : List (String × ℚ)) (hm : sd.metrics = some ents) :
    (¬ (ents.all (fun kv => healthMetricsFieldNames.contains kv.1) = true) →
        loadTwinState u (some sd) = none)
  ∧ (ents.all (fun kv => healthMetricsFieldNames.contains kv.1) = true →
        loadTwinState u (some sd) =
          some { user_id := u, created_at := sd.created_at, updated_at := sd.updated_at,
                 metrics := ents.foldl (fun m kv => setMetricsField m kv.1 kv.2) {},
                 vitality_score := sd.vitality_score.getD 0,
                 biological_age_delta := sd.biological_age_delta.getD 0,
                 trend_indicators := sd.trend_indicators.getD [],
                 intervention_efficacy := sd.intervention_efficacy.getD [],
                 last_sync := sd.last_sync, version := sd.version.getD 1,
                 last_persistence := sd.last_persistence }) := by
  constructor
  · intro hbad
    simp only [loadTwinState, healthMetricsOfDict, hm, Option.getD_some]
    rw [if_neg hbad]
  · intro hgood
    simp only [loadTwinState, healthMetricsOfDict, hm, Option.getD_some]
    rw [if_pos hgood]

/-- Claim C8 witness: the amended load theorem applied to a concrete
snapshot whose metrics dict holds only the recognised hrv key. -/
theorem load_field_by_field_amended_witness :
    loadTwinState "u2" (some { metrics := some [("hrv", 50)], version := some 4 }) =
      some { user_id := "u2", created_at := none, updated_at := none,
             metrics := { hrv := 50 }, vitality_score := 0, biological_age_delta := 0,
             trend_indicators := [], intervention_efficacy := [], last_sync := none,
             version := 4, last_persistence := none } := by
  have h := (load_field_by_field_amended "u2"
    { metrics := some [("hrv", 50)], version := some 4 } [("hrv", 50)] rfl).2 (by decide)
  rw [h]
  norm_num [setMetricsField]

/-! Claim C1. -/

/-- Claim C1 amended: for every inbound event whose user_id is a
non-empty string U for which the consent oracle reports no granted
personalization consent, the digital twin dispatch drops the event at
the boundary with the warning record: handle is never invoked, nothing
is published and no twin state changes. -/
theorem consent_gate_blocks_nonempty_user (check : String → String → Bool)
    (st : TwinAgentState) (env : TwinEnv) (e : Event) (U : String)
    (hu : e.user_id = some U) (hne : U ≠ "") (hc : check U "personalization" = false) :
    twinDispatch check st env e = DispatchOutcome.dropped "consent guard blocked event" := by
  have hg : consentGuard check e = false := by
    unfold consentGuard
    rw [hu]
    simp [hne, hc]
  unfold twinDispatch
  rw [hg]
  simp

/-- Claim C1 witness: the consent-gate theorem applied to a concrete
event for user u1 against an oracle that grants nothing. -/
theorem consent_gate_blocks_nonempty_user_witness :
    twinDispatch (fun _ _ => false) {} { now := 0 }
        { topic := "ingest.wearables.standardized", type := "w",
          payload := {}, user_id := some "u1", correlation_id := some "c1" } =
      DispatchOutcome.dropped "consent guard blocked event" :=
  consent_gate_blocks_nonempty_user (fun _ _ => false) {} { now := 0 }
    { topic := "ingest.wearables.standardized", type := "w",
      payload := {}, user_id := some "u1", correlation_id := some "c1" }
    "u1" rfl (by decide) rfl

/-- Event of the C1 counterexample: a wearables event whose user_id is
the empty string. -/
def c1CexEvent : Event :=
  { topic := "ingest.wearables.standardized", type := "w",
    payload := {}, user_id := some "", correlation_id := some "c0" }

theorem c1_vitality : calculateVitalityScore { sleep_efficiency := 17/20 } = 867/1600 := by
  norm_num +decide [calculateVitalityScore, hrvScore, sleepScore, activityScore,
    recoveryScore, stressScore, rhrScore, VITALITY_WEIGHTS]

/-- Claim C1 counterexample: an event whose user_id is the empty string
is an inbound event with user_id=U (U the empty string) for which the
oracle grants nothing, yet the guard returns True without consulting the
oracle and handle runs to completion, storing a twin (under the sentinel
identity the or-chain resolves to) with an incremented version. -/
theorem consent_gate_empty_user_bypass_cex :
    consentGuard (fun _ _ => false) c1CexEvent = true
    ∧ (twinDispatch (fun _ _ => false) {} { now := 0 } c1CexEvent).isDropped = false
    ∧ (twinDispatch (fun _ _ => false) {} { now := 0 } c1CexEvent).twinVersion "unknown" = some 2 := by
  refine ⟨by norm_num [consentGuard, c1CexEvent], ?_, ?_⟩
  · norm_num +decide [twinDispatch, twinHandle, topicUpdate, consentGuard, c1CexEvent, pyOrS,
      getOrCreateTwin, alistGet, alistSet, loadTwinState, updateFromWearables,
      c1_vitality, calculateTrends, metricsToTrend, calculateTrendForMetric, trendStep,
      schedulePersistence, shouldPersist, DispatchOutcome.isDropped, round1_zero, round3_c1val]
  · norm_num +decide [twinDispatch, twinHandle, topicUpdate, consentGuard, c1CexEvent, pyOrS,
      getOrCreateTwin, alistGet, alistSet, loadTwinState, updateFromWearables,
      c1_vitality, calculateTrends, metricsToTrend, calculateTrendForMetric, trendStep,
      schedulePersistence, shouldPersist, DispatchOutcome.twinVersion, round1_zero, round3_c1val]

/-! Claim C3. -/

/-- Consent oracle of the end-to-end scenario: u1 has granted
personalization consent. -/
def c3Check : String → String → Bool := fun u p => decide (u = "u1" ∧ p = "personalization")

/-- Inbound wearable event of the end-to-end scenario: an hrv
observation of 45 for u1. -/
def c3Event : Event :=
  { topic := "ingest.wearables.standardized", type := "wearable.data",
    payload := { data := [some { codeText := "hrv", value := some 45 }] },
    user_id := some "u1", correlation_id := some "c1" }

/-- Environment of the end-to-end scenario: empty time-series store and
no stored snapshot. -/
def c3Env : TwinEnv := { now := 0 }

theorem c3_vitality : calculateVitalityScore { hrv := 45, sleep_efficiency := 17/20 } = 917/1600 := by
  norm_num +decide [calculateVitalityScore, hrvScore, sleepScore, activityScore,
    recoveryScore, stressScore, rhrScore, VITALITY_WEIGHTS]

theorem c3_pubs_eval :
    (twinDispatch c3Check {} c3Env c3Event).pubs =
      [{ topic := "user.twin.updated", event_type := "twin.updated",
         payload := PubPayload.twinUpdated "u1" (573/1000) 0 { hrv := 45 } [] 2,
         user_id := some "u1", correlation_id := some "c1" }] := by
  norm_num +decide [twinDispatch, twinHandle, topicUpdate, consentGuard, c3Check, c3Event, c3Env, pyOrS,
    getOrCreateTwin, alistGet, alistSet, loadTwinState, updateFromWearables,
    updateFromWearablesItem, pyLower_hrv, c3_vitality,
    calculateTrends, metricsToTrend, calculateTrendForMetric, trendStep, schedulePersistence,
    shouldPersist, DispatchOutcome.pubs, round1_zero, round3_c3val]

theorem c3_version_eval :
    (twinDispatch c3Check {} c3Env c3Event).twinVersion "u1" = some 2 := by
  norm_num +decide [twinDispatch, twinHandle, topicUpdate, consentGuard, c3Check, c3Event, c3Env, pyOrS,
    getOrCreateTwin, alistGet, alistSet, loadTwinState, updateFromWearables,
    updateFromWearablesItem, pyLower_hrv, c3_vitality,
    calculateTrends, metricsToTrend, calculateTrendForMetric, trendStep, schedulePersistence,
    shouldPersist, DispatchOutcome.twinVersion, round1_zero, round3_c3val]

/-- Claim C3 counterexample: in the end-to-end scenario the single
user.twin.updated publish carries version 2, not the claimed version 1
(a fresh TwinState already starts at version 1 and handle increments it
before publishing). -/
theorem end_to_end_version_not_one_cex :
    (twinDispatch c3Check {} c3Env c3Event).pubs.map (fun p => (p.topic, p.payloadVersion)) =
      [("user.twin.updated", some 2)]
    ∧ some (2 : ℤ) ≠ some 1 := by
  constructor
  · rw [c3_pubs_eval]
    norm_num [Pub.payloadVersion]
  · norm_num

/-- Claim C3 amended: publishing the wearable event with metric hrv and
value 45 for u1 with granted consent makes twin u1's HRV 45.0,
recomputes the vitality score (published rounded to 0.573) and publishes
user.twin.updated carrying version 2. -/
theorem end_to_end_scenario_amended :
    (twinDispatch c3Check {} c3Env c3Event).pubs =
      [{ topic := "user.twin.updated", event_type := "twin.updated",
         payload := PubPayload.twinUpdated "u1" (573/1000) 0 { hrv := 45 } [] 2,
         user_id := some "u1", correlation_id := some "c1" }]
    ∧ round3 (calculateVitalityScore { hrv := 45 }) = 573/1000
    ∧ (twinDispatch c3Check {} c3Env c3Event).twinVersion "u1" = some 2 := by
  refine ⟨c3_pubs_eval, ?_, c3_version_eval⟩
  norm_num [c3_vitality, round3_c3val]

/-! Claim C5. -/

/-- Metric snapshot within the documented ranges of HealthMetrics. -/
def metricsInRange (m : HealthMetrics) : Prop :=
  20 ≤ m.hrv ∧ m.hrv ≤ 100 ∧ 40 ≤ m.resting_heart_rate ∧ m.resting_heart_rate ≤ 100 ∧
  0 ≤ m.sleep_efficiency ∧ m.sleep_efficiency ≤ 1 ∧ 0 ≤ m.activity_minutes ∧
  0 ≤ m.stress_score ∧ m.stress_score ≤ 1 ∧ 0 ≤ m.recovery_score ∧ m.recovery_score ≤ 1

theorem VW_hrv : VITALITY_WEIGHTS "hrv" = 1/4 := rfl

theorem VW_sleep : VITALITY_WEIGHTS "sleep_efficiency" = 1/5 := rfl

theorem VW_activity : VITALITY_WEIGHTS "activity" = 1/5 := rfl

theorem VW_recovery : VITALITY_WEIGHTS "recovery" = 3/20 := rfl

theorem VW_stress : VITALITY_WEIGHTS "stress" = 1/10 := rfl

theorem VW_rhr : VITALITY_WEIGHTS "rhr" = 1/10 := rfl

/-- Claim C5: vitality_score is a pure deterministic function of the
metrics snapshot: the six weights sum to 1, the computed score equals
the documented weighted-sum formula, the result is clamped to [0,1],
identical inputs give identical outputs, and on in-range snapshots each
of the six sub-scores lies in [0,1]. -/
theorem vitality_deterministic_weighted :
    (VITALITY_WEIGHTS "hrv" + VITALITY_WEIGHTS "sleep_efficiency" + VITALITY_WEIGHTS "activity" +
       VITALITY_WEIGHTS "recovery" + VITALITY_WEIGHTS "stress" + VITALITY_WEIGHTS "rhr" = 1)
  ∧ (∀ m, calculateVitalityScore m = vitalitySpecFormula m)
  ∧ (∀ m, 0 ≤ calculateVitalityScore m ∧ calculateVitalityScore m ≤ 1)
  ∧ (∀ m₁ m₂, m₁ = m₂ → calculateVitalityScore m₁ = calculateVitalityScore m₂)
  ∧ (∀ m, metricsInRange m →
       (0 ≤ hrvScore m ∧ hrvScore m ≤ 1) ∧ (0 ≤ sleepScore m ∧ sleepScore m ≤ 1) ∧
       (0 ≤ activityScore m ∧ activityScore m ≤ 1) ∧ (0 ≤ recoveryScore m ∧ recoveryScore m ≤ 1) ∧
       (0 ≤ stressScore m ∧ stressScore m ≤ 1) ∧ (0 ≤ rhrScore m ∧ rhrScore m ≤ 1)) := by
  refine ⟨by rw [VW_hrv, VW_sleep, VW_activity, VW_recovery, VW_stress, VW_rhr]; norm_num,
    ?_, ?_, ?_, ?_⟩
  · intro m
    unfold calculateVitalityScore vitalitySpecFormula hrvScore sleepScore activityScore
      recoveryScore stressScore rhrScore
    rw [VW_hrv, VW_sleep, VW_activity, VW_recovery, VW_stress, VW_rhr]
  · intro m
    unfold calculateVitalityScore
    exact ⟨le_max_left 0 _, max_le (by norm_num) (min_le_left 1 _)⟩
  · intro m₁ m₂ h
    rw [h]
  · intro m hm
    obtain ⟨h1, h2, h3, h4, h5, h6, h7, h8, h9, h10, h11⟩ := hm
    refine ⟨⟨le_max_left 0 _, max_le (by norm_num) (min_le_left 1 _)⟩,
            ⟨h5, h6⟩,
            ⟨?_, min_le_right _ 1⟩,
            ⟨h10, h11⟩,
            ⟨by simp only [stressScore]; linarith, by simp only [stressScore]; linarith⟩,
            ⟨le_max_left 0 _, max_le (by norm_num) (min_le_left 1 _)⟩⟩
    unfold activityScore
    exact le_min (by positivity) (by norm_num)

/-- Claim C5 witness: the vitality theorem instantiated at the default
metric snapshot, which is in range. -/
theorem vitality_deterministic_weighted_witness :
    calculateVitalityScore {} = vitalitySpecFormula {}
  ∧ (0 ≤ calculateVitalityScore {} ∧ calculateVitalityScore {} ≤ 1)
  ∧ calculateVitalityScore {} = calculateVitalityScore {}
  ∧ (0 ≤ sleepScore {} ∧ sleepScore {} ≤ 1) :=
  ⟨vitality_deterministic_weighted.2.1 {},
   vitality_deterministic_weighted.2.2.1 {},
   vitality_deterministic_weighted.2.2.2.1 {} {} rfl,
   (vitality_deterministic_weighted.2.2.2.2 {} (by norm_num [metricsInRange])).2.1⟩

/-! Claim C6. -/

/-- Written from the spec's words for comparison (claim C6): the
textbook least-squares slope of value against time over paired samples,
in its standard uncentered form. -/
def specLeastSquaresSlope (ts vs : List ℚ) : ℚ :=
  ((ts.length : ℚ) * ((ts.zip vs).map (fun p => p.1 * p.2)).sum - ts.sum * vs.sum) /
  ((ts.length : ℚ) * (ts.map (fun t => t ^ 2)).sum - ts.sum ^ 2)

theorem sum_zip_centered (a b : ℚ) :
    ∀ (ts vs : List ℚ), ts.length = vs.length →
      ((ts.zip vs).map (fun p => (p.1 - a) * (p.2 - b))).sum =
        ((ts.zip vs).map (fun p => p.1 * p.2)).sum - a * vs.sum - b * ts.sum +
          (ts.length : ℚ) * (a * b) := by
  intro ts
  induction ts with
  | nil =>
    intro vs h
    rw [List.length_nil] at h
    rw [List.eq_nil_of_length_eq_zero h.symm]
    simp
  | cons t rest ih =>
    intro vs h
    cases vs with
    | nil => simp at h
    | cons v vrest =>
      simp only [List.zip_cons_cons, List.map_cons, List.sum_cons, List.length_cons]
      rw [ih vrest (by simpa using h)]
      push_cast
      ring

theorem sum_sq_centered (a : ℚ) (ts : List ℚ) :
    (ts.map (fun t => (t - a) ^ 2)).sum =
      (ts.map (fun t => t ^ 2)).sum - 2 * a * ts.sum + (ts.length : ℚ) * a ^ 2 := by
  induction ts with
  | nil => simp
  | cons t rest ih =>
    simp only [List.map_cons, List.sum_cons, List.length_cons]
    rw [ih]
    push_cast
    ring

/-- The centered two-pass computation of the source equals the textbook
least-squares slope whenever every parsed timestamp has its value (the
two collected lists have equal length). -/
theorem centered_slope_eq_spec (ts vs : List ℚ) (hlen : ts.length = vs.length)
    (hn : ts.length ≠ 0) :
    ((ts.zip vs).map (fun p => (p.1 - ts.sum / ts.length) * (p.2 - vs.sum / ts.length))).sum /
      (ts.map (fun t => (t - ts.sum / ts.length) ^ 2)).sum =
      specLeastSquaresSlope ts vs := by
  have hq : ((ts.length : ℚ)) ≠ 0 := Nat.cast_ne_zero.mpr hn
  rw [sum_zip_centered (ts.sum / ts.length) (vs.sum / ts.length) ts vs hlen,
      sum_sq_centered (ts.sum / ts.length) ts]
  unfold specLeastSquaresSlope
  have hnum : ((ts.zip vs).map (fun p => p.1 * p.2)).sum - ts.sum / ts.length * vs.sum -
      vs.sum / ts.length * ts.sum + (ts.length : ℚ) * (ts.sum / ts.length * (vs.sum / ts.length)) =
      ((ts.length : ℚ) * ((ts.zip vs).map (fun p => p.1 * p.2)).sum - ts.sum * vs.sum) / ts.length := by
    field_simp
    ring
  have hden : (ts.map (fun t => t ^ 2)).sum - 2 * (ts.sum / ts.length) * ts.sum +
      (ts.length : ℚ) * (ts.sum / ts.length) ^ 2 =
      ((ts.length : ℚ) * (ts.map (fun t => t ^ 2)).sum - ts.sum ^ 2) / ts.length := by
    field_simp
    ring
  rw [hnum, hden]
  have hcancel : ∀ (A B n : ℚ), n ≠ 0 → A / n / (B / n) = A / B := by
    intro A B n hn0
    rcases eq_or_ne B 0 with hB | hB
    · simp [hB]
    · field_simp
  rw [hcancel _ _ _ hq]

theorem trendNormalize_hrv (d : ℚ) : trendNormalize "hrv" d = max (-1) (min 1 (d / 5)) := rfl

theorem trendNormalize_stress (d : ℚ) :
    trendNormalize "stress_score" d = max (-1) (min 1 (-d / (1/10))) := rfl

theorem trendNormalize_bounds (metric : String) (d : ℚ) :
    -1 ≤ trendNormalize metric d ∧ trendNormalize metric d ≤ 1 := by
  unfold trendNormalize
  split_ifs <;> exact ⟨le_max_left _ _, max_le (by norm_num) (min_le_left _ _)⟩

/-- Rows of the C6 counterexample: six rows are returned for the metric,
but only the last two are valid (parseable timestamp and value); the
first four rows have unparseable timestamps. -/
def c6Rows : List TsRow :=
  [{ ts := none }, { ts := none }, { ts := none }, { ts := none },
   { ts := some 0, value := 0 }, { ts := some 86400, value := 1 }]

/-- Claim C6 counterexample: with six raw rows of which only two are
valid points, the code still produces a trend entry (the threshold
counts raw rows, not valid points), refuting that an entry is produced
only with more than 5 valid historical points. -/
theorem trend_six_rows_two_valid_points_cex :
    calculateTrendForMetric "hrv" c6Rows = some (1/5)
    ∧ (collectPoints c6Rows).2.length = 2
    ∧ ¬ (5 < (collectPoints c6Rows).2.length) := by
  have hcp : collectPoints c6Rows = ([0, 86400], [0, 1]) := by
    norm_num [collectPoints, c6Rows, List.foldl]
  refine ⟨?_, by rw [hcp]; rfl, by rw [hcp]; norm_num⟩
  unfold calculateTrendForMetric
  rw [if_pos (by norm_num [c6Rows]), hcp]
  norm_num [trendNormalize_hrv]
  exact round3_fifth

/-- Claim C6 amended: a trend entry for a metric is produced only when
more than 5 raw rows are returned (valid or not) and at least two rows
have parseable timestamps (with positive variance); an absent entry is
guaranteed only when the raw row count is at most 5; every produced
entry lies in [-1,1]; when every parsed timestamp also has its value,
the produced entry is round3 of the clamped normalized textbook
least-squares slope of value against time converted to a per-day rate,
and the normalization inverts the sign for stress (a nonnegative daily
change yields a nonpositive stress trend, a nonnegative daily change
yields a nonnegative hrv trend). -/
theorem trend_entry_characterization (metric : String) (data : List TsRow) :
    (data.length ≤ 5 → calculateTrendForMetric metric data = none)
  ∧ (∀ s, calculateTrendForMetric metric data = some s →
      5 < data.length ∧ 1 < (collectPoints data).1.length ∧ -1 ≤ s ∧ s ≤ 1)
  ∧ ((collectPoints data).1.length = (collectPoints data).2.length →
      5 < data.length → 1 < (collectPoints data).1.length →
      0 < ((collectPoints data).1.map
            (fun t => (t - (collectPoints data).1.sum / (collectPoints data).1.length) ^ 2)).sum →
      calculateTrendForMetric metric data =
        some (round3 (trendNormalize metric
          (specLeastSquaresSlope (collectPoints data).1 (collectPoints data).2 * 86400))))
  ∧ (∀ d, 0 ≤ d → trendNormalize "stress_score" d ≤ 0)
  ∧ (∀ d, 0 ≤ d → 0 ≤ trendNormalize "hrv" d) := by
  refine ⟨?_, ?_, ?_, ?_, ?_⟩
  · intro h
    unfold calculateTrendForMetric
    rw [if_neg (by omega)]
  · intro s hs
    simp only [calculateTrendForMetric] at hs
    split at hs
    · rename_i h1
      split at hs
      · rename_i h2
        split at hs
        · obtain ⟨x, hx⟩ : ∃ x, s = round3 (trendNormalize metric x) :=
            ⟨_, (Option.some.inj hs).symm⟩
          have hb := trendNormalize_bounds metric x
          have hr := round3_bounds _ hb.1 hb.2
          exact ⟨h1, h2, by rw [hx]; exact hr.1, by rw [hx]; exact hr.2⟩
        · exact absurd hs (by simp)
      · exact absurd hs (by simp)
    · exact absurd hs (by simp)
  · intro hlen h1 h2 h3
    have hn : (collectPoints data).1.length ≠ 0 := by omega
    have h1g : data.length > 5 := h1
    have h2g : (collectPoints data).1.length > 1 := h2
    have h3g : ((collectPoints data).1.map
        (fun t => (t - (collectPoints data).1.sum / (collectPoints data).1.length) ^ 2)).sum > 0 := h3
    simp only [calculateTrendForMetric]
    rw [if_pos h1g, if_pos h2g, if_pos h3g,
      centered_slope_eq_spec (collectPoints data).1 (collectPoints data).2 hlen hn]
  · intro d hd
    rw [trendNormalize_stress]
    have hx : -d / (1/10) ≤ 0 := by
      rw [div_nonpos_iff]
      right
      constructor <;> linarith
    exact max_le (by norm_num) (le_trans (min_le_right _ _) hx)
  · intro d hd
    rw [trendNormalize_hrv]
    refine le_trans (le_min (by norm_num) (by positivity)) (le_max_right _ _)

/-- Claim C6 witness: the trend characterization applied to concrete
inputs: an empty row list produces no entry, a unit positive daily
change gives a nonpositive stress trend and a nonnegative hrv trend. -/
theorem trend_entry_characterization_witness :
    calculateTrendForMetric "hrv" ([] : List TsRow) = none
  ∧ trendNormalize "stress_score" 1 ≤ 0
  ∧ 0 ≤ trendNormalize "hrv" 1 :=
  ⟨(trend_entry_characterization "hrv" []).1 (by decide),
   (trend_entry_characterization "hrv" []).2.2.2.1 1 (by norm_num),
   (trend_entry_characterization "hrv" []).2.2.2.2 1 (by norm_num)⟩

/-! Claim C9. -/

theorem topicUpdate_version (twin0 : TwinState) (env : TwinEnv) (e : Event) :
    (topicUpdate twin0 env e).1.version = twin0.version := by
  unfold topicUpdate
  split_ifs
  · rfl
  · exact updateFromLabs_version _ _
  · exact recalculateTwin_version _ _ _
  · rfl

theorem twinHandle_version_increment (st : TwinAgentState) (env : TwinEnv) (e : Event) :
    (alistGet (twinHandle st env e).1.twins
        (pyOrS e.user_id (pyOrS e.payload.user_id "unknown"))).map (fun t => t.version) =
      some ((getOrCreateTwin st env (pyOrS e.user_id (pyOrS e.payload.user_id "unknown"))).version + 1) := by
  simp only [twinHandle]
  rw [alistGet_alistSet]
  simp only [Option.map_some']
  rw [schedulePersistence_twin_version]
  simp only [calculateTrends_version]
  rw [topicUpdate_version]

/-- Claim C9: an inbound event whose user_id is absent (None) passes the
consent guard regardless of the oracle, is fully handled, and is
processed under the identity taken from the payload's user_id via the
or-chain (the sentinel unknown when the payload carries none), whose
stored twin version is incremented by the handling. -/
theorem missing_user_id_bypasses_consent (check : String → String → Bool)
    (st : TwinAgentState) (env : TwinEnv) (e : Event) (h : e.user_id = none) :
    consentGuard check e = true
  ∧ twinDispatch check st env e =
      DispatchOutcome.handled (twinHandle st env e).1 (twinHandle st env e).2
  ∧ (alistGet (twinHandle st env e).1.twins (pyOrS e.payload.user_id "unknown")).map
        (fun t => t.version) =
      some ((getOrCreateTwin st env (pyOrS e.payload.user_id "unknown")).version + 1)
  ∧ (e.payload.user_id = none → pyOrS e.payload.user_id "unknown" = "unknown") := by
  have hg : consentGuard check e = true := by
    unfold consentGuard
    rw [h]
  refine ⟨hg, ?_, ?_, ?_⟩
  · unfold twinDispatch
    rw [hg]
    simp
  · have hv := twinHandle_version_increment st env e
    rw [h] at hv
    simpa [pyOrS] using hv
  · intro hp
    rw [hp]
    rfl

/-- Claim C9 witness: the missing-user-id theorem applied to a concrete
event with user_id None and an empty payload, against an oracle that
grants nothing. -/
theorem missing_user_id_bypasses_consent_witness :
    consentGuard (fun _ _ => false) { topic := "t", type := "ty", payload := {} } = true
  ∧ twinDispatch (fun _ _ => false) {} { now := 0 } { topic := "t", type := "ty", payload := {} } =
      DispatchOutcome.handled
        (twinHandle {} { now := 0 } { topic := "t", type := "ty", payload := {} }).1
        (twinHandle {} { now := 0 } { topic := "t", type := "ty", payload := {} }).2
  ∧ (alistGet (twinHandle {} { now := 0 } { topic := "t", type := "ty", payload := {} }).1.twins
        (pyOrS none "unknown")).map (fun t => t.version) =
      some ((getOrCreateTwin {} { now := 0 } (pyOrS none "unknown")).version + 1)
  ∧ ((none : Option String) = none → pyOrS none "unknown" = "unknown") :=
  missing_user_id_bypasses_consent (fun _ _ => false) {} { now := 0 }
    { topic := "t", type := "ty", payload := {} } rfl

/-! Claim C10. -/

/-- Claim C10: the Event timestamp dataclass default is evaluated once,
at class-definition (module-import) time: two events constructed without
an explicit timestamp carry the same timestamp, namely the import
instant, and an event constructed at any other instant does not record
its construction instant. -/
theorem event_timestamp_default_once (t0 : ℚ) (topic ty : String) (p : Payload)
    (u c : Option String) (t1 t2 : ℚ) :
    (mkEventWithoutTimestamp t0 topic ty p u c t1).timestamp =
      (mkEventWithoutTimestamp t0 topic ty p u c t2).timestamp
  ∧ (mkEventWithoutTimestamp t0 topic ty p u c t1).timestamp = eventTimestampDefault t0
  ∧ (t1 ≠ t0 → (mkEventWithoutTimestamp t0 topic ty p u c t1).timestamp ≠ t1) :=
  ⟨rfl, rfl, fun h hc => h hc.symm⟩

/-- Claim C10 witness: the timestamp-default theorem at concrete
instants: two events constructed at instants 7 and 9 in a process that
imported the module at instant 5 both carry timestamp 5, not their
construction instants. -/
theorem event_timestamp_default_once_witness :
    (mkEventWithoutTimestamp 5 "t" "ty" {} none none 7).timestamp =
      (mkEventWithoutTimestamp 5 "t" "ty" {} none none 9).timestamp
  ∧ (mkEventWithoutTimestamp 5 "t" "ty" {} none none 7).timestamp ≠ 7 :=
  ⟨(event_timestamp_default_once 5 "t" "ty" {} none none 7 9).1,
   (event_timestamp_default_once 5 "t" "ty" {} none none 7 9).2.2 (by norm_num)⟩

end VitaEx
